import Mathlib

/-!
Shallow embedding of `ticket_tracking_system.py`, a small in-memory ticket
tracking utility.  Python dictionaries holding ticket records are modelled by
the structure `Ticket`; candidate records handed to `add_ticket` (which may be
missing keys or hold values of the wrong runtime type) are modelled by
`Candidate`, whose fields are `Option PyVal`.  Exceptions (`ValueError`,
`IndexError`, `AttributeError`) become the `PyErr` sum carried in `Except`.
In-place list mutation is modelled by returning the post-state of the mutated
list next to the Python return value.
-/

/-- Python runtime values that can appear as a ticket field or as a caller
supplied argument: strings and integers suffice for this module. -/
inductive PyVal where
  | str (s : String)
  | int (n : Int)
deriving DecidableEq, Repr

/-- The exceptions raised by the module: `ValueError` (validation failures),
`IndexError` (out-of-range list access) and `AttributeError`. -/
inductive PyErr where
  | validationError (msg : String)
  | indexError (msg : String)
  | attributeError (msg : String)
deriving DecidableEq, Repr

/-- A well-formed ticket record: the five fields every stored ticket carries.
`priority` is an unconstrained integer here; the range [1,4] is enforced by
the validation code, not by the type. -/
structure Ticket where
  id : String
  title : String
  type : String
  priority : Int
  status : String
deriving DecidableEq, Repr

/-- A candidate ticket as passed to `add_ticket`: a dictionary that may be
missing any of the five keys (`none`) and whose values are arbitrary runtime
values. -/
structure Candidate where
  id : Option PyVal
  title : Option PyVal
  type : Option PyVal
  priority : Option PyVal
  status : Option PyVal
deriving DecidableEq, Repr

/-- Python `value in list_of_strings`: true exactly when `value` is a string
belonging to the list (an `int` never equals a `str` in Python). -/
def pyMem (v : PyVal) (l : List String) : Bool :=
  match v with
  | .str s => l.contains s
  | .int _ => false

/-- Accumulate decimal digits; `none` on the first non-digit character. -/
def digitsToNat (acc : Nat) : List Char → Option Nat
  | [] => some acc
  | c :: cs => if c.isDigit then digitsToNat (acc * 10 + (c.toNat - 48)) cs else none

/-- Python `int(s)` on a string: an optional sign followed by at least one
decimal digit; any other shape raises `ValueError`, modelled as `none`. -/
def pyInt (s : String) : Option Int :=
  match s.data with
  | [] => none
  | '-' :: [] => none
  | '-' :: c :: cs => (digitsToNat 0 (c :: cs)).map (fun n => -(n : Int))
  | '+' :: [] => none
  | '+' :: c :: cs => (digitsToNat 0 (c :: cs)).map (fun n => (n : Int))
  | cs => (digitsToNat 0 cs).map (fun n => (n : Int))

/-- Python `int(value)` on a runtime value: integers pass through, strings are
parsed by `pyInt`. -/
def pyIntOf (v : PyVal) : Option Int :=
  match v with
  | .int n => some n
  | .str s => pyInt s

/-- Python `isinstance(v, int) and lo <= v <= hi`: false for any non-integer
runtime value. -/
def pyIsIntInRange (v : PyVal) (lo hi : Int) : Bool :=
  match v with
  | .int n => lo ≤ n && n ≤ hi
  | .str _ => false

/-- Python list indexing `l[i]`: negative indices count from the end; an index
outside `[-len, len)` raises `IndexError`. -/
def pyListGet {α : Type} (l : List α) (i : Int) : Except PyErr α :=
  let j := if i < 0 then i + l.length else i
  if h : 0 ≤ j ∧ j.toNat < l.length then .ok (l.get ⟨j.toNat, h.2⟩)
  else .error (.indexError "list index out of range")

/-- `needle.isPrefixOf`-based substring test on character lists: models
Python `needle in hay` for strings. -/
def strIn (needle : List Char) : List Char → Bool
  | [] => needle.isEmpty
  | c :: t => needle.isPrefixOf (c :: t) || strIn needle t

/-! ## The translated operations -/

/-- `initialize_data()`: the seed dataset — 5 tickets, 2 escalated tickets,
and an empty active queue. -/
def initialize_data : List Ticket × List Ticket × List Ticket :=
  ([⟨"T001", "Payment not processing", "billing", 2, "open"⟩,
    ⟨"T002", "Reset password", "account", 3, "new"⟩,
    ⟨"T003", "Application crashes", "technical", 1, "open"⟩,
    ⟨"T004", "Add dark mode", "feature", 4, "new"⟩,
    ⟨"T005", "Renewal failed", "billing", 2, "open"⟩],
   [⟨"E001", "Security breach", "technical", 1, "new"⟩,
    ⟨"E002", "Double-charged", "billing", 1, "new"⟩],
   [])

def valid_types : List String := ["technical", "billing", "general", "account", "feature"]

def valid_statuses : List String := ["new", "open", "resolved", "closed"]

/-- `add_ticket(tickets, ticket)`: validates presence of the five required
fields (in order), then type, priority and status; on success appends the
ticket and returns the updated list. -/
def add_ticket (tickets : List Candidate) (ticket : Candidate) :
    Except PyErr (List Candidate) :=
  if ticket.id.isNone then
    .error (.validationError "Ticket is missing required field: id")
  else if ticket.title.isNone then
    .error (.validationError "Ticket is missing required field: title")
  else if ticket.type.isNone then
    .error (.validationError "Ticket is missing required field: type")
  else if ticket.priority.isNone then
    .error (.validationError "Ticket is missing required field: priority")
  else if ticket.status.isNone then
    .error (.validationError "Ticket is missing required field: status")
  else if ¬ pyMem (ticket.type.getD (.int 0)) valid_types then
    .error (.validationError
      ("Invalid ticket type. Must be one of: " ++ String.intercalate ", " valid_types))
  else if ¬ pyIsIntInRange (ticket.priority.getD (.int 0)) 1 4 then
    .error (.validationError "Priority must be an integer between 1 and 4")
  else if ¬ pyMem (ticket.status.getD (.int 0)) valid_statuses then
    .error (.validationError
      ("Invalid status. Must be one of: " ++ String.intercalate ", " valid_statuses))
  else
    .ok (tickets ++ [ticket])

/-- `remove_ticket(tickets, index)`: bounds check, then `tickets.pop(index)`.
The result pairs the removed ticket (the Python return value) with the
post-state of the list. -/
def remove_ticket (tickets : List Ticket) (index : Int) :
    Except PyErr (Ticket × List Ticket) :=
  if index < 0 ∨ (tickets.length : Int) ≤ index then
    .error (.indexError "Index out of range")
  else
    .ok (tickets.getD index.toNat ⟨"", "", "", 0, ""⟩, tickets.eraseIdx index.toNat)

def valid_keys : List String := ["id", "priority", "status", "type"]

/-- The comparison `ticket[key] <= other[key]` used by the sort: lexicographic
on the string fields, numeric on priority.  (The catch-all branch is dead
code: the key has been validated before sorting.) -/
def keyLe (key : String) (a b : Ticket) : Bool :=
  match key with
  | "id" => a.id ≤ b.id
  | "priority" => a.priority ≤ b.priority
  | "status" => a.status ≤ b.status
  | "type" => a.type ≤ b.type
  | _ => true

/-- `sort_tickets(tickets, key)`: validates the key, copies the list, and
stable-sorts it ascending by the key field (Python's `list.sort` is a stable
merge sort, modelled by `List.mergeSort`). The original list is never
modified (the source sorts a copy). -/
def sort_tickets (tickets : List Ticket) (key : String) :
    Except PyErr (List Ticket) :=
  if ¬ valid_keys.contains key then
    .error (.validationError
      ("Invalid sort key. Must be one of: " ++ String.intercalate ", " valid_keys))
  else
    .ok (tickets.mergeSort (keyLe key))

def valid_filters : List String := ["type", "status", "priority", "keyword"]

/-- `filter_tickets(tickets, filter_type, value)`: keyword does a
case-insensitive substring search on titles; priority coerces string values
to int (raising on failure) and matches exactly; type/status match by bare
equality with no validation of `value`. -/
def filter_tickets (tickets : List Ticket) (filter_type : String) (value : PyVal) :
    Except PyErr (List Ticket) :=
  if ¬ valid_filters.contains filter_type then
    .error (.validationError
      ("Invalid filter type. Must be one of: " ++ String.intercalate ", " valid_filters))
  else if filter_type = "keyword" then
    match value with
    | .int _ => .error (.attributeError "int object has no attribute lower")
    | .str s =>
      .ok (tickets.filter (fun t => strIn s.toLower.data t.title.toLower.data))
  else if filter_type = "priority" then
    match value with
    | .str s =>
      match pyInt s with
      | none => .error (.validationError "Priority value must be a number between 1 and 4")
      | some n => .ok (tickets.filter (fun t => t.priority == n))
    | .int n => .ok (tickets.filter (fun t => t.priority == n))
  else
    .ok (tickets.filter (fun t =>
      if filter_type = "type" then PyVal.str t.type == value
      else PyVal.str t.status == value))

/-- `combine_queues(tickets1, tickets2)`: plain concatenation, a pure
function. -/
def combine_queues (tickets1 tickets2 : List Ticket) : List Ticket :=
  tickets1 ++ tickets2

/-- `get_priority_tickets(tickets, priority_level)`: validates that the level
is an integer in [1,4], then filters by exact priority match. -/
def get_priority_tickets (tickets : List Ticket) (priority_level : PyVal) :
    Except PyErr (List Ticket) :=
  match priority_level with
  | .str _ => .error (.validationError "Priority level must be between 1 and 4")
  | .int n =>
    if n < 1 ∨ 4 < n then
      .error (.validationError "Priority level must be between 1 and 4")
    else
      .ok (tickets.filter (fun t => t.priority == n))

/-- What `manage_queue` returns: the queue itself (for `add`/`clear`) or the
removed ticket (for `remove`). -/
inductive MQRet where
  | queue (q : List Ticket)
  | removed (t : Ticket)
deriving DecidableEq, Repr

def valid_operations : List String := ["add", "remove", "clear"]

/-- `manage_queue(tickets, active_queue, operation, index)`: the bounded
active-queue state machine.  The result pairs the post-state of
`active_queue` with the Python return value. -/
def manage_queue (tickets : List Ticket) (active_queue : List Ticket)
    (operation : String) (index : Option Int) :
    Except PyErr (List Ticket × MQRet) :=
  if ¬ valid_operations.contains operation then
    .error (.validationError
      ("Invalid operation. Must be one of: " ++ String.intercalate ", " valid_operations))
  else if operation = "add" then
    if index.isNone then
      .error (.validationError "Index is required for add operation")
    else if index.getD 0 < 0 ∨ (tickets.length : Int) ≤ index.getD 0 then
      .error (.indexError "Ticket index out of range")
    else if 5 ≤ active_queue.length then
      .error (.validationError "Active queue is at maximum capacity (5 tickets)")
    else
      .ok (active_queue ++ [tickets.getD (index.getD 0).toNat ⟨"", "", "", 0, ""⟩],
           .queue (active_queue ++ [tickets.getD (index.getD 0).toNat ⟨"", "", "", 0, ""⟩]))
  else if operation = "remove" then
    if index.isNone then
      .error (.validationError "Index is required for remove operation")
    else if index.getD 0 < 0 ∨ (active_queue.length : Int) ≤ index.getD 0 then
      .error (.indexError "Queue index out of range")
    else
      .ok (active_queue.eraseIdx (index.getD 0).toNat,
           .removed (active_queue.getD (index.getD 0).toNat ⟨"", "", "", 0, ""⟩))
  else
    .ok ([], .queue [])

def valid_fields : List String := ["status", "priority", "type"]

/-- `update_ticket(tickets, index, field, value)`: bounds check, field-name
check, then per-field validation; mutates the addressed ticket in place and
returns it.  The result pairs the post-state of the list with the updated
ticket.  For priority, a non-coercible value and an out-of-range value
collapse to one error message (the source re-raises a bare `ValueError`
caught by the same handler). -/
def update_ticket (tickets : List Ticket) (index : Int) (field : String) (value : PyVal) :
    Except PyErr (List Ticket × Ticket) :=
  if index < 0 ∨ (tickets.length : Int) ≤ index then
    .error (.indexError "Ticket index out of range")
  else if ¬ valid_fields.contains field then
    .error (.validationError
      ("Invalid field. Must be one of: " ++ String.intercalate ", " valid_fields))
  else
    if field = "status" then
      if ¬ pyMem value valid_statuses then
        .error (.validationError
          ("Invalid status. Must be one of: " ++ String.intercalate ", " valid_statuses))
      else
        .ok (tickets.set index.toNat
               { tickets.getD index.toNat ⟨"", "", "", 0, ""⟩ with
                 status := match value with | .str s => s | .int _ => "" },
             { tickets.getD index.toNat ⟨"", "", "", 0, ""⟩ with
               status := match value with | .str s => s | .int _ => "" })
    else if field = "priority" then
      match pyIntOf value with
      | none => .error (.validationError "Priority must be an integer between 1 and 4")
      | some p =>
        if p < 1 ∨ 4 < p then
          .error (.validationError "Priority must be an integer between 1 and 4")
        else
          .ok (tickets.set index.toNat
                 { tickets.getD index.toNat ⟨"", "", "", 0, ""⟩ with priority := p },
               { tickets.getD index.toNat ⟨"", "", "", 0, ""⟩ with priority := p })
    else
      if ¬ pyMem value valid_types then
        .error (.validationError
          ("Invalid type. Must be one of: " ++ String.intercalate ", " valid_types))
      else
        .ok (tickets.set index.toNat
               { tickets.getD index.toNat ⟨"", "", "", 0, ""⟩ with
                 type := match value with | .str s => s | .int _ => "" },
             { tickets.getD index.toNat ⟨"", "", "", 0, ""⟩ with
               type := match value with | .str s => s | .int _ => "" })

def priority_indicators : List String := ["CRITICAL", "HIGH", "MEDIUM", "LOW"]

/-- `get_formatted_ticket(ticket)`: renders one display line.  The priority
label is looked up at Python index `priority - 1` in a 4-element list, so
priority 0 silently wraps to the last label and priority ≥ 5 raises
`IndexError`. -/
def get_formatted_ticket (ticket : Ticket) : Except PyErr String :=
  match pyListGet priority_indicators (ticket.priority - 1) with
  | .error e => .error e
  | .ok priority_text =>
    .ok (ticket.id ++ " | " ++ ticket.title ++ " | " ++ ticket.type ++
         " | Priority: " ++ priority_text ++ " (" ++ toString ticket.priority ++
         ") | Status: " ++ ticket.status.toUpper)

/-! ## Helper lemmas -/

theorem keyLe_trans (key : String) (a b c : Ticket) :
    keyLe key a b = true → keyLe key b c = true → keyLe key a c = true := by
  by_cases h1 : key = "id" <;> by_cases h2 : key = "priority" <;>
    by_cases h3 : key = "status" <;> by_cases h4 : key = "type" <;>
    simp_all [keyLe] <;> exact le_trans

theorem keyLe_total (key : String) (a b : Ticket) :
    (keyLe key a b || keyLe key b a) = true := by
  by_cases h1 : key = "id" <;> by_cases h2 : key = "priority" <;>
    by_cases h3 : key = "status" <;> by_cases h4 : key = "type" <;>
    simp_all [keyLe] <;> exact le_total _ _

/-- Stability of `List.mergeSort`, phrased through an equivalence-class
filter: filtering the sorted output by a predicate whose satisfying elements
are pairwise `le`-related gives back the input's filtered sublist verbatim. -/
theorem mergeSort_filter_eq (le : Ticket → Ticket → Bool)
    (trans : ∀ a b c, le a b = true → le b c = true → le a c = true)
    (total : ∀ a b, (le a b || le b a) = true)
    (l : List Ticket) (p : Ticket → Bool)
    (hp : ∀ a b, p a = true → p b = true → le a b = true) :
    (l.mergeSort le).filter p = l.filter p := by
  have hpw : (l.filter p).Pairwise (fun a b => le a b = true) :=
    List.pairwise_of_forall_mem_list (fun a ha b hb =>
      hp a b (List.mem_filter.mp ha).2 (List.mem_filter.mp hb).2)
  have h1 : List.Sublist (l.filter p) (l.mergeSort le) :=
    List.sublist_mergeSort trans total hpw (List.filter_sublist l)
  have h2 := h1.filter p
  rw [List.filter_filter] at h2
  simp only [Bool.and_self] at h2
  have hlen : (l.filter p).length = ((l.mergeSort le).filter p).length := by
    rw [← List.countP_eq_length_filter, ← List.countP_eq_length_filter]
    exact ((List.mergeSort_perm l le).countP_eq p).symm
  exact (h2.eq_of_length hlen).symm

/-- Python indexing fails with `IndexError` outside `[-len, len)`. -/
theorem pyListGet_oob {α : Type} (l : List α) (i : Int)
    (h : i < -(l.length : Int) ∨ (l.length : Int) ≤ i) :
    pyListGet l i = .error (.indexError "list index out of range") := by
  rw [pyListGet]
  split <;> rename_i hc
  · rw [dif_neg (by omega)]
  · rw [dif_neg (by omega)]

/-! ## Claim theorems -/

/-- C8: `combine_queues(A, B)` is pure concatenation: its length is
`len(A) + len(B)`, its first `len(A)` elements are exactly `A` in order, and
the rest are exactly `B` in order; neither input is changed. -/
theorem combine_queues_spec (A B : List Ticket) :
    (combine_queues A B).length = A.length + B.length ∧
    (combine_queues A B).take A.length = A ∧
    (combine_queues A B).drop A.length = B := by
  refine ⟨?_, ?_, ?_⟩
  · simp [combine_queues]
  · exact List.take_left A B
  · exact List.drop_left A B

/-- C9: on the seed dataset, `get_priority_tickets(tickets, 1)` returns
exactly `[T003]`, `filter_tickets(tickets, "type", "billing")` returns
`[T001, T005]` in original order, and `update_ticket(tickets, 0, "status",
"resolved")` yields a state whose first ticket has status `"resolved"`. -/
theorem end_to_end_seed :
    get_priority_tickets initialize_data.1 (.int 1) =
      .ok [⟨"T003", "Application crashes", "technical", 1, "open"⟩] ∧
    filter_tickets initialize_data.1 "type" (.str "billing") =
      .ok [⟨"T001", "Payment not processing", "billing", 2, "open"⟩,
           ⟨"T005", "Renewal failed", "billing", 2, "open"⟩] ∧
    update_ticket initialize_data.1 0 "status" (.str "resolved") =
      .ok ([⟨"T001", "Payment not processing", "billing", 2, "resolved"⟩,
            ⟨"T002", "Reset password", "account", 3, "new"⟩,
            ⟨"T003", "Application crashes", "technical", 1, "open"⟩,
            ⟨"T004", "Add dark mode", "feature", 4, "new"⟩,
            ⟨"T005", "Renewal failed", "billing", 2, "open"⟩],
           ⟨"T001", "Payment not processing", "billing", 2, "resolved"⟩) ∧
    (⟨"T001", "Payment not processing", "billing", 2, "resolved"⟩ : Ticket).status =
      "resolved" := by
  refine ⟨rfl, rfl, rfl, rfl⟩

/-- C4: for each key in {id, priority, status, type}, `sort_tickets` returns
a new sequence — a permutation of the input sorted ascending by that field's
natural order — and the sort is stable (the elements of any equal-key class
appear in their original relative order); any other key raises
`ValidationError` enumerating the valid keys. -/
theorem sort_tickets_spec (tickets : List Ticket) (key : String) :
    (key ∈ valid_keys →
      ∃ out, sort_tickets tickets key = .ok out ∧
        out.Pairwise (fun a b => keyLe key a b = true) ∧
        out.Perm tickets ∧
        ∀ t0 : Ticket,
          out.filter (fun t => keyLe key t0 t && keyLe key t t0) =
            tickets.filter (fun t => keyLe key t0 t && keyLe key t t0)) ∧
    (key ∉ valid_keys →
      sort_tickets tickets key = .error (.validationError
        ("Invalid sort key. Must be one of: " ++ String.intercalate ", " valid_keys))) := by
  constructor
  · intro hk
    refine ⟨tickets.mergeSort (keyLe key), ?_, ?_, ?_, ?_⟩
    · simp [sort_tickets, List.contains, hk]
    · exact List.sorted_mergeSort (keyLe_trans key) (keyLe_total key) tickets
    · exact List.mergeSort_perm tickets (keyLe key)
    · intro t0
      refine mergeSort_filter_eq (keyLe key) (keyLe_trans key) (keyLe_total key) tickets _ ?_
      intro a b ha hb
      rw [Bool.and_eq_true] at ha hb
      exact keyLe_trans key a t0 b ha.2 hb.1
  · intro hk
    simp [sort_tickets, List.contains, hk]

/-- Witness for C4: sorting the seed data by "priority" succeeds with the
stated properties, and the invalid key "color" raises `ValidationError`. -/
theorem sort_tickets_spec_witness :
    (∃ out, sort_tickets initialize_data.1 "priority" = .ok out ∧
        out.Pairwise (fun a b => keyLe "priority" a b = true) ∧
        out.Perm initialize_data.1 ∧
        ∀ t0 : Ticket,
          out.filter (fun t => keyLe "priority" t0 t && keyLe "priority" t t0) =
            initialize_data.1.filter
              (fun t => keyLe "priority" t0 t && keyLe "priority" t t0)) ∧
    sort_tickets initialize_data.1 "color" = .error (.validationError
        ("Invalid sort key. Must be one of: " ++ String.intercalate ", " valid_keys)) :=
  ⟨(sort_tickets_spec initialize_data.1 "priority").1 (by decide),
   (sort_tickets_spec initialize_data.1 "color").2 (by decide)⟩

/-- C6: `remove_ticket` raises `IndexOutOfRange` exactly when the index is
negative or at least the length; on a valid index it returns the element at
that position, and the post-state list is the original with that position
removed — elements before it unchanged, later elements shifted down one. -/
theorem remove_ticket_spec (tickets : List Ticket) (index : Int) :
    ((index < 0 ∨ (tickets.length : Int) ≤ index) →
      remove_ticket tickets index = .error (.indexError "Index out of range")) ∧
    (∀ (h0 : 0 ≤ index) (hl : index.toNat < tickets.length),
      remove_ticket tickets index =
        .ok (tickets.get ⟨index.toNat, hl⟩,
             tickets.take index.toNat ++ tickets.drop (index.toNat + 1)) ∧
      (tickets.take index.toNat ++ tickets.drop (index.toNat + 1)).length + 1 =
        tickets.length) := by
  constructor
  · intro h
    rw [remove_ticket, if_pos h]
  · intro h0 hl
    have hnot : ¬ (index < 0 ∨ (tickets.length : Int) ≤ index) := by omega
    constructor
    · rw [remove_ticket, if_neg hnot, List.eraseIdx_eq_take_drop_succ,
        List.getD_eq_getElem tickets _ hl]
      rfl
    · rw [← List.eraseIdx_eq_take_drop_succ]
      rw [List.length_eraseIdx_of_lt hl]
      omega

/-- Witness for C6: removing index 1 from the seed data returns T002 and a
4-element list; index 9 raises `IndexOutOfRange`. -/
theorem remove_ticket_spec_witness :
    remove_ticket initialize_data.1 9 = .error (.indexError "Index out of range") ∧
    (remove_ticket initialize_data.1 1 =
      .ok (initialize_data.1.get ⟨1, by decide⟩,
           initialize_data.1.take 1 ++ initialize_data.1.drop 2) ∧
     (initialize_data.1.take 1 ++ initialize_data.1.drop 2).length + 1 =
       initialize_data.1.length) :=
  ⟨(remove_ticket_spec initialize_data.1 9).1 (by decide),
   (remove_ticket_spec initialize_data.1 1).2 (by decide) (by decide)⟩

/-- C10: `get_formatted_ticket` is partial outside the documented priority
range: priority 0 silently renders the "LOW" label (Python index -1 selects
the last of the four indicators), while priority ≥ 5 fails with an
out-of-bounds `IndexError`, not a `ValidationError`. -/
theorem get_formatted_ticket_oob (t : Ticket) :
    (t.priority = 0 →
      get_formatted_ticket t =
        .ok (t.id ++ " | " ++ t.title ++ " | " ++ t.type ++ " | Priority: " ++ "LOW" ++
             " (" ++ toString t.priority ++ ") | Status: " ++ t.status.toUpper)) ∧
    (5 ≤ t.priority →
      get_formatted_ticket t = .error (.indexError "list index out of range")) := by
  constructor
  · intro h
    have : pyListGet priority_indicators (t.priority - 1) = .ok "LOW" := by
      rw [h]
      rfl
    rw [get_formatted_ticket, this]
  · intro h
    have : pyListGet priority_indicators (t.priority - 1) =
        .error (.indexError "list index out of range") := by
      refine pyListGet_oob priority_indicators (t.priority - 1) (Or.inr ?_)
      simp only [priority_indicators, List.length_cons, List.length_nil]
      omega
    rw [get_formatted_ticket, this]

/-- Witness for C10: a concrete priority-0 ticket renders with the "LOW"
label; a concrete priority-7 ticket raises `IndexError`. -/
theorem get_formatted_ticket_oob_witness :
    get_formatted_ticket ⟨"X", "t", "general", 0, "new"⟩ =
      .ok ("X" ++ " | " ++ "t" ++ " | " ++ "general" ++ " | Priority: " ++ "LOW" ++
           " (" ++ toString (0 : Int) ++ ") | Status: " ++ "new".toUpper) ∧
    get_formatted_ticket ⟨"Y", "u", "general", 7, "open"⟩ =
      .error (.indexError "list index out of range") :=
  ⟨(get_formatted_ticket_oob ⟨"X", "t", "general", 0, "new"⟩).1 rfl,
   (get_formatted_ticket_oob ⟨"Y", "u", "general", 7, "open"⟩).2 (by decide)⟩

/-- C1: `add_ticket` succeeds exactly on candidates that carry all five
required fields with a valid type, an integer priority in [1,4], and a valid
status: such a ticket is appended at the end (existing elements and order
untouched) and the updated sequence returned; every other candidate raises
`ValidationError` and the list is not extended. -/
theorem add_ticket_spec (tickets : List Candidate) (t : Candidate) :
    (t.id.isNone = false ∧ t.title.isNone = false ∧ t.type.isNone = false ∧
     t.priority.isNone = false ∧ t.status.isNone = false ∧
     pyMem (t.type.getD (.int 0)) valid_types = true ∧
     pyIsIntInRange (t.priority.getD (.int 0)) 1 4 = true ∧
     pyMem (t.status.getD (.int 0)) valid_statuses = true →
      add_ticket tickets t = .ok (tickets ++ [t])) ∧
    (¬ (t.id.isNone = false ∧ t.title.isNone = false ∧ t.type.isNone = false ∧
        t.priority.isNone = false ∧ t.status.isNone = false ∧
        pyMem (t.type.getD (.int 0)) valid_types = true ∧
        pyIsIntInRange (t.priority.getD (.int 0)) 1 4 = true ∧
        pyMem (t.status.getD (.int 0)) valid_statuses = true) →
      ∃ msg, add_ticket tickets t = .error (.validationError msg)) := by
  constructor
  · rintro ⟨h1, h2, h3, h4, h5, h6, h7, h8⟩
    simp [add_ticket, h1, h2, h3, h4, h5, h6, h7, h8]
  · intro h
    unfold add_ticket
    repeat' split
    any_goals exact ⟨_, rfl⟩
    exfalso
    apply h
    simp_all

/-- Witness for C1: a fully valid candidate is appended to the empty list; a
candidate missing its id raises `ValidationError`. -/
theorem add_ticket_spec_witness :
    add_ticket [] ⟨some (.str "T9"), some (.str "Broken scanner"), some (.str "general"),
        some (.int 2), some (.str "new")⟩ =
      .ok [⟨some (.str "T9"), some (.str "Broken scanner"), some (.str "general"),
        some (.int 2), some (.str "new")⟩] ∧
    (∃ msg, add_ticket []
        ⟨none, some (.str "x"), some (.str "general"), some (.int 2), some (.str "new")⟩ =
      .error (.validationError msg)) :=
  ⟨(add_ticket_spec [] _).1 (by decide), (add_ticket_spec [] _).2 (by decide)⟩

/-- C2: for a queue within capacity, `manage_queue "add"` raises
`ValidationError` on a missing index, `IndexOutOfRange` on an index outside
`tickets`, `ValidationError` ("at maximum capacity (5 tickets)") on a full
queue, and otherwise appends `tickets[index]` and returns the queue; every
successful `manage_queue` operation preserves `len(active_queue) ≤ 5`; after
a `clear` the queue is empty, and a subsequent `add` on the emptied queue
succeeds. -/
theorem manage_queue_capacity_spec (tickets active_queue : List Ticket)
    (hq : active_queue.length ≤ 5) :
    manage_queue tickets active_queue "add" none =
      .error (.validationError "Index is required for add operation") ∧
    (∀ i : Int, (i < 0 ∨ (tickets.length : Int) ≤ i) →
      manage_queue tickets active_queue "add" (some i) =
        .error (.indexError "Ticket index out of range")) ∧
    (∀ i : Int, 0 ≤ i → i < (tickets.length : Int) → 5 ≤ active_queue.length →
      manage_queue tickets active_queue "add" (some i) =
        .error (.validationError "Active queue is at maximum capacity (5 tickets)")) ∧
    (∀ i : Int, 0 ≤ i → i < (tickets.length : Int) → active_queue.length < 5 →
      manage_queue tickets active_queue "add" (some i) =
        .ok (active_queue ++ [tickets.getD i.toNat ⟨"", "", "", 0, ""⟩],
             .queue (active_queue ++ [tickets.getD i.toNat ⟨"", "", "", 0, ""⟩]))) ∧
    (∀ (op : String) (idx : Option Int) (q' : List Ticket) (r : MQRet),
      manage_queue tickets active_queue op idx = .ok (q', r) → q'.length ≤ 5) ∧
    manage_queue tickets active_queue "clear" none = .ok ([], .queue []) ∧
    (0 < tickets.length →
      manage_queue tickets [] "add" (some 0) =
        .ok ([tickets.getD 0 ⟨"", "", "", 0, ""⟩],
             .queue [tickets.getD 0 ⟨"", "", "", 0, ""⟩])) := by
  have hadd : ∀ (q : List Ticket) (i : Int), 0 ≤ i → i < (tickets.length : Int) →
      q.length < 5 →
      manage_queue tickets q "add" (some i) =
        .ok (q ++ [tickets.getD i.toNat ⟨"", "", "", 0, ""⟩],
             .queue (q ++ [tickets.getD i.toNat ⟨"", "", "", 0, ""⟩])) := by
    intro q i h0 hl hroom
    unfold manage_queue
    rw [if_neg (by decide), if_pos rfl, if_neg (by simp), if_neg (by simp only [Option.getD_some]; omega),
      if_neg (by omega)]
    simp
  refine ⟨?_, ?_, ?_, ?_, ?_, ?_, ?_⟩
  · unfold manage_queue
    rw [if_neg (by decide), if_pos rfl, if_pos (by simp)]
  · intro i hi
    unfold manage_queue
    rw [if_neg (by decide), if_pos rfl, if_neg (by simp), if_pos (by simpa using hi)]
  · intro i h0 hl hfull
    unfold manage_queue
    rw [if_neg (by decide), if_pos rfl, if_neg (by simp), if_neg (by simp only [Option.getD_some]; omega),
      if_pos hfull]
  · intro i h0 hl hroom
    exact hadd active_queue i h0 hl hroom
  · intro op idx q' r h
    unfold manage_queue at h
    repeat' split at h
    all_goals first
      | exact Except.noConfusion h
      | (simp only [Except.ok.injEq, Prod.mk.injEq] at h
         obtain ⟨h1, h2⟩ := h
         subst h1
         first
           | exact le_trans (List.length_eraseIdx_le _ _) hq
           | (simp only [List.length_append, List.length_cons, List.length_nil]
              omega))
  · unfold manage_queue
    rw [if_neg (by decide), if_neg (by decide), if_neg (by decide)]
  · intro hlen
    have := hadd [] 0 le_rfl (by omega) (by simp)
    simpa using this

/-- Witness for C2: on the seed tickets with an empty queue, a missing index
raises `ValidationError`, adding index 0 succeeds, and `clear` returns the
empty queue. -/
theorem manage_queue_capacity_spec_witness :
    manage_queue initialize_data.1 [] "add" none =
      .error (.validationError "Index is required for add operation") ∧
    manage_queue initialize_data.1 [] "add" (some 0) =
      .ok ([initialize_data.1.getD 0 ⟨"", "", "", 0, ""⟩],
           .queue [initialize_data.1.getD 0 ⟨"", "", "", 0, ""⟩]) ∧
    manage_queue initialize_data.1 [] "clear" none = .ok ([], .queue []) :=
  ⟨(manage_queue_capacity_spec initialize_data.1 [] (by decide)).1,
   (manage_queue_capacity_spec initialize_data.1 [] (by decide)).2.2.2.1 0
     (by decide) (by decide) (by decide),
   (manage_queue_capacity_spec initialize_data.1 [] (by decide)).2.2.2.2.2.1⟩

/-- C3: `filter_tickets` is asymmetric: for `"type"`/`"status"` any value is
matched by bare equality and never raises (an unmatched value gives an empty
result); for `"priority"` a non-coercible string raises `ValidationError`
("must be a number between 1 and 4"), while a coercible string filters by
exact equality with no range check, so the out-of-range `"7"` gives an empty
result on in-range data instead of an error. -/
theorem filter_tickets_asym (tickets : List Ticket) :
    (∀ v : PyVal, filter_tickets tickets "type" v =
        .ok (tickets.filter (fun t => PyVal.str t.type == v))) ∧
    (∀ v : PyVal, filter_tickets tickets "status" v =
        .ok (tickets.filter (fun t => PyVal.str t.status == v))) ∧
    (∀ v : PyVal, (∀ t ∈ tickets, PyVal.str t.type ≠ v) →
        filter_tickets tickets "type" v = .ok []) ∧
    (∀ s : String, pyInt s = none →
        filter_tickets tickets "priority" (.str s) =
          .error (.validationError "Priority value must be a number between 1 and 4")) ∧
    (∀ (s : String) (n : Int), pyInt s = some n →
        filter_tickets tickets "priority" (.str s) =
          .ok (tickets.filter (fun t => t.priority == n))) ∧
    ((∀ t ∈ tickets, 1 ≤ t.priority ∧ t.priority ≤ 4) →
        filter_tickets tickets "priority" (.str "7") = .ok []) := by
  refine ⟨?_, ?_, ?_, ?_, ?_, ?_⟩
  · intro v
    simp +decide [filter_tickets]
  · intro v
    simp +decide [filter_tickets]
  · intro v hv
    simp +decide [filter_tickets]
    intro t ht
    exact hv t ht
  · intro s hs
    simp +decide [filter_tickets, hs]
  · intro s n hs
    simp +decide [filter_tickets, hs]
  · intro hrange
    have h7 : pyInt "7" = some 7 := rfl
    simp +decide [filter_tickets, h7]
    intro t ht
    have := hrange t ht
    omega

/-- Witness for C3: on the seed data, an unknown type value gives an empty
result without raising, the non-numeric priority value "abc" raises
`ValidationError`, and the out-of-range coercible value "7" gives an empty
result. -/
theorem filter_tickets_asym_witness :
    filter_tickets initialize_data.1 "type" (.str "weather") = .ok [] ∧
    filter_tickets initialize_data.1 "priority" (.str "abc") =
      .error (.validationError "Priority value must be a number between 1 and 4") ∧
    filter_tickets initialize_data.1 "priority" (.str "7") = .ok [] :=
  ⟨(filter_tickets_asym initialize_data.1).2.2.1 (.str "weather") (by decide),
   (filter_tickets_asym initialize_data.1).2.2.2.1 "abc" (by decide),
   (filter_tickets_asym initialize_data.1).2.2.2.2.2 (by decide)⟩

/-- C5: with a valid index, `update_ticket(_, _, "priority", v)` raises
`ValidationError` ("must be an integer between 1 and 4") exactly when
coercing `v` to an integer fails or the result is outside [1,4]; on success
the addressed ticket's priority becomes the coerced integer, its other
fields and all other tickets are untouched, and the updated record is
returned. -/
theorem update_ticket_priority_spec (tickets : List Ticket) (index : Int) (value : PyVal)
    (h0 : 0 ≤ index) (hl : index.toNat < tickets.length) :
    (pyIntOf value = none →
      update_ticket tickets index "priority" value =
        .error (.validationError "Priority must be an integer between 1 and 4")) ∧
    (∀ p : Int, pyIntOf value = some p → (p < 1 ∨ 4 < p) →
      update_ticket tickets index "priority" value =
        .error (.validationError "Priority must be an integer between 1 and 4")) ∧
    (∀ p : Int, pyIntOf value = some p → 1 ≤ p → p ≤ 4 →
      update_ticket tickets index "priority" value =
        .ok (tickets.set index.toNat
               { tickets.getD index.toNat ⟨"", "", "", 0, ""⟩ with priority := p },
             { tickets.getD index.toNat ⟨"", "", "", 0, ""⟩ with priority := p })) := by
  have hb : ¬ (index < 0 ∨ (tickets.length : Int) ≤ index) := by omega
  refine ⟨?_, ?_, ?_⟩
  · intro hv
    unfold update_ticket
    rw [if_neg hb, if_neg (by decide), if_neg (by decide), if_pos rfl]
    simp only [hv]
  · intro p hv hr
    unfold update_ticket
    rw [if_neg hb, if_neg (by decide), if_neg (by decide), if_pos rfl]
    simp only [hv]
    rw [if_pos hr]
  · intro p hv hlo hhi
    unfold update_ticket
    rw [if_neg hb, if_neg (by decide), if_neg (by decide), if_pos rfl]
    simp only [hv]
    rw [if_neg (by omega)]

/-- Witness for C5: on the seed data at index 0, value "3" updates the
priority to 3 leaving everything else intact, and value "9" raises
`ValidationError`. -/
theorem update_ticket_priority_spec_witness :
    update_ticket initialize_data.1 0 "priority" (.str "3") =
      .ok (initialize_data.1.set 0
             { initialize_data.1.getD 0 ⟨"", "", "", 0, ""⟩ with priority := 3 },
           { initialize_data.1.getD 0 ⟨"", "", "", 0, ""⟩ with priority := 3 }) ∧
    update_ticket initialize_data.1 0 "priority" (.str "9") =
      .error (.validationError "Priority must be an integer between 1 and 4") :=
  ⟨(update_ticket_priority_spec initialize_data.1 0 (.str "3") (by decide) (by decide)).2.2
     3 (by decide) (by decide) (by decide),
   (update_ticket_priority_spec initialize_data.1 0 (.str "9") (by decide) (by decide)).2.1
     9 (by decide) (by decide)⟩

/-- C7: `manage_queue "remove"` raises `ValidationError` on a missing index
and `IndexOutOfRange` on an index outside `active_queue`; on a valid index
it removes that entry (order preserved) and returns the removed ticket
itself — unlike `add` and `clear`, which return the queue. -/
theorem manage_queue_remove_spec (tickets active_queue : List Ticket) :
    manage_queue tickets active_queue "remove" none =
      .error (.validationError "Index is required for remove operation") ∧
    (∀ i : Int, (i < 0 ∨ (active_queue.length : Int) ≤ i) →
      manage_queue tickets active_queue "remove" (some i) =
        .error (.indexError "Queue index out of range")) ∧
    (∀ i : Int, 0 ≤ i → i < (active_queue.length : Int) →
      manage_queue tickets active_queue "remove" (some i) =
        .ok (active_queue.eraseIdx i.toNat,
             .removed (active_queue.getD i.toNat ⟨"", "", "", 0, ""⟩))) ∧
    (∀ i : Int, 0 ≤ i → i < (tickets.length : Int) → active_queue.length < 5 →
      ∃ q', manage_queue tickets active_queue "add" (some i) = .ok (q', .queue q')) ∧
    (∃ q', manage_queue tickets active_queue "clear" none = .ok (q', .queue q')) := by
  refine ⟨?_, ?_, ?_, ?_, ?_⟩
  · unfold manage_queue
    rw [if_neg (by decide), if_neg (by decide), if_pos rfl, if_pos (by simp)]
  · intro i hi
    unfold manage_queue
    rw [if_neg (by decide), if_neg (by decide), if_pos rfl, if_neg (by simp),
      if_pos (by simpa using hi)]
  · intro i h0 hl
    unfold manage_queue
    rw [if_neg (by decide), if_neg (by decide), if_pos rfl, if_neg (by simp),
      if_neg (by simp only [Option.getD_some]; omega)]
    simp
  · intro i h0 hl hroom
    unfold manage_queue
    rw [if_neg (by decide), if_pos rfl, if_neg (by simp),
      if_neg (by simp only [Option.getD_some]; omega), if_neg (by omega)]
    exact ⟨_, rfl⟩
  · unfold manage_queue
    rw [if_neg (by decide), if_neg (by decide), if_neg (by decide)]
    exact ⟨[], rfl⟩

/-- Witness for C7: removing index 0 from a one-element queue returns the
removed ticket (not the queue); a missing index raises `ValidationError`. -/
theorem manage_queue_remove_spec_witness :
    manage_queue initialize_data.1
        [⟨"T001", "Payment not processing", "billing", 2, "open"⟩] "remove" (some 0) =
      .ok ([], .removed ⟨"T001", "Payment not processing", "billing", 2, "open"⟩) ∧
    manage_queue initialize_data.1 [] "remove" none =
      .error (.validationError "Index is required for remove operation") :=
  ⟨(manage_queue_remove_spec initialize_data.1
      [⟨"T001", "Payment not processing", "billing", 2, "open"⟩]).2.2.1 0
      (by decide) (by decide),
   (manage_queue_remove_spec initialize_data.1 []).1⟩
